import Mathlib

/-!
Verification of the review-proxy backend (`src/app.py`) against its
natural-language specification.  The Python service is shallowly embedded:
dict-shaped upstream records become structures with `Option` fields (a `none`
field is an absent key), Python ints become `Int`, `round(x, 2)` becomes exact
rational rounding with ties-to-even (the behaviour of Python 3 `round` on the
concrete values considered here, all of which are exactly representable at the
points where rounding decisions are made), and exceptions become `Option`
results.
-/

/-- The value stored under the `rating` key of a raw review dict.  `intVal`
is an `int`, `strNum` a string that `int()` parses to the given integer, and
`bad` any value on which `int()` raises (for example the string `"abc"`). -/
inductive RatingVal where
  | intVal (i : Int)
  | strNum (i : Int)
  | bad
deriving DecidableEq, Repr

/-- Python `int(v)` on a rating value: `none` means the call raises. -/
def ratingToInt : RatingVal → Option Int
  | .intVal i => some i
  | .strNum i => some i
  | .bad => none

/-- One entry of a raw review's `pictures` list: the nested `urls` dict with
its `original` and `huge` variants (`none` = key absent). -/
structure Picture where
  urls_original : Option String
  urls_huge : Option String
deriving DecidableEq, Repr

/-- One entry of a raw review's `videos` list (carried by the upstream record;
`url` is the direct URL field, `original_url` the "original" URL field). -/
structure Video where
  url : Option String
  original_url : Option String
deriving DecidableEq, Repr

/-- The nested `reviewer` dict of a raw review. -/
structure Reviewer where
  name : Option String
deriving DecidableEq, Repr

/-- A raw review record from the upstream provider, restricted to the keys the
service reads (every field is optional, matching `dict.get`). -/
structure RawReview where
  id : Option Int
  title : Option String
  body : Option String
  rating : Option RatingVal
  product_handle : Option String
  published : Option Bool
  reviewer : Option Reviewer
  verified : Option String
  pictures : Option (List Picture)
  videos : List Video
  created_at : Option String
deriving DecidableEq, Repr

/-- A raw review with every key absent (and an empty `videos` list). -/
def emptyRawReview : RawReview :=
  ⟨none, none, none, none, none, none, none, none, none, [], none⟩

/-- Star-count histogram `{5:_, 4:_, 3:_, 2:_, 1:_}`. -/
structure Distribution where
  s1 : Nat
  s2 : Nat
  s3 : Nat
  s4 : Nat
  s5 : Nat
deriving DecidableEq, Repr

/-- `distribution[rating] += 1` (the caller guarantees `rating ∈ [1,5]`;
any other key would raise in Python and is dead code after clamping). -/
def Distribution.add (d : Distribution) (r : Int) : Distribution :=
  if r = 1 then { d with s1 := d.s1 + 1 }
  else if r = 2 then { d with s2 := d.s2 + 1 }
  else if r = 3 then { d with s3 := d.s3 + 1 }
  else if r = 4 then { d with s4 := d.s4 + 1 }
  else if r = 5 then { d with s5 := d.s5 + 1 }
  else d

/-- `distribution[b]` viewed as a lookup (0 outside the five buckets). -/
def Distribution.get (d : Distribution) (b : Int) : Nat :=
  if b = 1 then d.s1
  else if b = 2 then d.s2
  else if b = 3 then d.s3
  else if b = 4 then d.s4
  else if b = 5 then d.s5
  else 0

/-- Sum of the five bucket counts. -/
def Distribution.total (d : Distribution) : Nat :=
  d.s1 + d.s2 + d.s3 + d.s4 + d.s5

/-- The all-zero histogram `{5:0, 4:0, 3:0, 2:0, 1:0}`. -/
def Distribution.zero : Distribution := ⟨0, 0, 0, 0, 0⟩

/-- `if rating < 1: rating = 1` -/
def clampLow (rating : Int) : Int := if rating < 1 then 1 else rating

/-- `if rating > 5: rating = 5` -/
def clampHigh (rating : Int) : Int := if rating > 5 then 5 else rating

/-- The rating-coercion steps of the `calculate_stats` loop body:
`rating = r.get('rating', 5)`, then `int(rating)` guarded by
`try/except` defaulting to 5, then the two clamping `if`s. -/
def coerceRating (ro : Option RatingVal) : Int :=
  clampHigh (clampLow
    (match ro with
     | none => 5
     | some v => (ratingToInt v).getD 5))

/-- Ties-to-even rounding of a rational to an integer: the rounding Python 3
`round` performs (exact on the inputs considered in this development). -/
def roundHalfEven (q : ℚ) : ℤ :=
  if q - ⌊q⌋ < 1/2 then ⌊q⌋
  else if q - ⌊q⌋ > 1/2 then ⌊q⌋ + 1
  else if ⌊q⌋ % 2 = 0 then ⌊q⌋ else ⌊q⌋ + 1

/-- Python `round(q, 2)`. -/
def pyRound2 (q : ℚ) : ℚ := (roundHalfEven (q * 100) : ℚ) / 100

/-- Rounding to 2 decimals with ties away from zero ("round half up"), as the
spec's words describe; compared against `pyRound2` for claim C5. -/
def specRound2HalfUp (q : ℚ) : ℚ := ((⌊q * 100 + 1/2⌋ : ℤ) : ℚ) / 100

/-- Result of `calculate_stats`. -/
structure Stats where
  average : ℚ
  count : Nat
  distribution : Distribution
deriving DecidableEq, Repr

/-- `calculate_stats(reviews)` from `src/app.py`: early return for the empty
list, else one pass coercing each rating, accumulating the histogram and the
sum, and finally `round(total_sum / count, 2)`. -/
def calculate_stats (reviews : List RawReview) : Stats :=
  if reviews.length = 0 then
    { average := 0, count := 0, distribution := Distribution.zero }
  else
    { average := pyRound2
        (((((reviews.map (fun r => coerceRating r.rating)).foldl (· + ·) 0 : Int)) : ℚ)
          / (reviews.length : ℚ)),
      count := reviews.length,
      distribution := (reviews.map (fun r => coerceRating r.rating)).foldl
        Distribution.add Distribution.zero }

/-- The upstream's answer to one `GET /api/v1/reviews` page request:
a 200 response with its parsed `reviews` batch, a non-200 status, or a
transport/parsing exception. -/
inductive PageResult where
  | ok (reviews : List RawReview)
  | httpError
  | exn
deriving DecidableEq, Repr

/-- `per_page = 100  # Maximum allowed per page` -/
def per_page : Nat := 100

/-- The `while True` pagination loop of `fetch_all_shop_reviews`, recursing
over the upstream's successive page answers and counting the requests made.
A non-200 status or an exception breaks; an empty batch breaks; a short batch
is appended and then breaks; a full batch is appended and the loop continues
with the next page. -/
def fetchGo : List PageResult → List RawReview → Nat → Nat × List RawReview
  | [], all_reviews, calls => (calls, all_reviews)
  | resp :: rest, all_reviews, calls =>
    match resp with
    | .httpError => (calls + 1, all_reviews)
    | .exn => (calls + 1, all_reviews)
    | .ok current_batch =>
      if current_batch = [] then (calls + 1, all_reviews)
      else if current_batch.length < per_page then
        (calls + 1, all_reviews ++ current_batch)
      else fetchGo rest (all_reviews ++ current_batch) (calls + 1)

/-- `fetch_all_shop_reviews()` from `src/app.py`, parameterised by the
upstream's page answers; returns the number of page requests made together
with the accumulated raw reviews. -/
def fetch_all_shop_reviews (responses : List PageResult) : Nat × List RawReview :=
  fetchGo responses [] 0

/-- A `{type, url}` media item of the normalized review. -/
structure MediaItem where
  type : String
  url : String
deriving DecidableEq, Repr

/-- Python `a or b` on two optional strings (`None` and `""` are falsy). -/
def pyOrStr (a b : Option String) : Option String :=
  match a with
  | some s => if s = "" then b else some s
  | none => b

/-- Python truthiness of an optional string. -/
def strTruthy : Option String → Bool
  | some s => s ≠ ""
  | none => false

/-- Media extraction of the normalizer (step A of the response-shaping loop):
`if r.get('pictures'):` then for each picture take
`urls.get('original') or urls.get('huge')` and keep it only `if img_url:`.
The record's `videos` list is never read. -/
def extractMedia (r : RawReview) : List MediaItem :=
  match r.pictures with
  | none => []
  | some ps =>
    if ps = [] then []
    else ps.filterMap (fun p =>
      let img_url := pyOrStr p.urls_original p.urls_huge
      if strTruthy img_url then some ⟨"image", img_url.getD ""⟩ else none)

/-- Author resolution (step B): `reviewer_data = r.get('reviewer', {})` then
`author_name = reviewer_data.get('name', 'Anonymous')`. -/
def authorName (r : RawReview) : String :=
  match r.reviewer with
  | none => "Anonymous"
  | some reviewer_data => reviewer_data.name.getD "Anonymous"

/-- The normalized ("clean") review built by the response-shaping loop. -/
structure CleanReview where
  id : Option Int
  title : Option String
  body : Option String
  rating : Int
  author : String
  initials : String
  is_verified : Bool
  date : Option String
  media : List MediaItem
  verification_type : String
deriving DecidableEq, Repr

/-- One iteration of the response-shaping loop of `get_reviews_route`
(steps A-D): `none` models the uncaught exception raised by
`int(r.get('rating', 5))` when the rating is unconvertible. -/
def normalizeReview (r : RawReview) : Option CleanReview :=
  let media := extractMedia r
  let author_name := authorName r
  let initials := if author_name = "" then "A" else (author_name.take 1).toUpper
  let raw_verified := r.verified.getD "nothing"
  let is_verified :=
    (["buyer", "verified_buyer", "confirmed-buyer", "email",
      "verified-purchase"]).contains raw_verified
  match (match r.rating with | none => some (5 : Int) | some v => ratingToInt v) with
  | none => none
  | some rating =>
    some { id := r.id, title := r.title, body := r.body, rating := rating,
           author := author_name, initials := initials,
           is_verified := is_verified, date := r.created_at, media := media,
           verification_type := raw_verified }

/-- The filtering step of `get_reviews_route`: keep a raw review iff its
`product_handle` equals the requested handle and its `published` field is
exactly `True`. -/
def filterReviews (target_handle : String) (raw_reviews : List RawReview) :
    List RawReview :=
  raw_reviews.filter (fun r =>
    r.product_handle = some target_handle && r.published = some true)

/-- The HTTP outcome of the list route: the 400 error, a 200 payload
`{stats, reviews}`, or an uncaught exception (Flask's 500). -/
inductive RouteOutcome where
  | badRequest (error : String)
  | success (stats : Stats) (reviews : List CleanReview)
  | raised
deriving DecidableEq, Repr

/-- `get_reviews_route()` from `src/app.py`, parameterised by the query
parameter (`none` = absent) and the upstream's page answers; paired with the
number of upstream page requests the call performs. -/
def get_reviews_route (handle : Option String) (responses : List PageResult) :
    RouteOutcome × Nat :=
  let target_handle := handle.getD ""
  if target_handle = "" then
    (RouteOutcome.badRequest "Missing 'handle' parameter", 0)
  else
    let (calls, raw_reviews) := fetch_all_shop_reviews responses
    let filtered_reviews := filterReviews target_handle raw_reviews
    let stats := calculate_stats filtered_reviews
    match filtered_reviews.mapM normalizeReview with
    | none => (RouteOutcome.raised, calls)
    | some clean_reviews => (RouteOutcome.success stats clean_reviews, calls)

/-- Client-supplied body of `POST /api/submit-review`. -/
structure SubmissionRequest where
  handle : String
  name : String
  email : String
  rating : Int
  body : String
  title : Option String
deriving DecidableEq, Repr

/-- The upstream provider's reaction to a forwarded submission: a response
with a status code and message, or a transport failure. -/
inductive SubmitUpstream where
  | response (status : Nat) (message : String)
  | transportFailure
deriving DecidableEq, Repr

/-- An HTTP reply of the submit route: status code and body marker. -/
structure SubmitReply where
  status : Nat
  body : String
deriving DecidableEq, Repr

/-- Modelled from the spec: the submit handler (`POST /api/submit-review`) is
absent from `src/app.py` (only the list route exists there); this definition
follows spec sections 4.4, 6 and 7.  It requires a JSON body, resolves the
numeric product identifier from the static handle map (404
handle-not-configured when unmapped), forwards to the provider, reports
success on a 2xx, relays the upstream status and message otherwise, and
reports a generic 500 on transport failure. -/
def submit_review_route (handleMap : String → Option Nat)
    (req : Option SubmissionRequest) (upstream : SubmitUpstream) : SubmitReply :=
  match req with
  | none => ⟨400, "Missing JSON body"⟩
  | some body =>
    match handleMap body.handle with
    | none => ⟨404, "Product handle not configured"⟩
    | some _pid =>
      match upstream with
      | .transportFailure => ⟨500, "Internal server error"⟩
      | .response status message =>
        if 200 ≤ status ∧ status < 300 then ⟨200, "success"⟩
        else ⟨status, message⟩

/-- A raw review whose only present key is an integer `rating`. -/
def ratedReview (i : Int) : RawReview :=
  { emptyRawReview with rating := some (.intVal i) }

/-- A raw review whose reviewer name is exactly `"Anonymous"`. -/
def anonReview : RawReview :=
  { emptyRawReview with reviewer := some ⟨some "Anonymous"⟩ }

/-- A raw review with no pictures and one video entry carrying a direct URL. -/
def videoReview : RawReview :=
  { emptyRawReview with videos := [⟨some "https://cdn.example/v1.mp4", none⟩] }

/-- A concrete handle→numeric-id configuration for exercising the submit
route. -/
def exampleHandleMap : String → Option Nat :=
  fun h => if h = "product-1" then some 123 else none

/-- A concrete submission body for exercising the submit route. -/
def exampleSubmission : SubmissionRequest :=
  ⟨"product-1", "Jo", "jo@example.com", 5, "Great", none⟩

section Helpers

/-- Every coerced rating lands in the interval [1,5]. -/
lemma coerceRating_bounds (ro : Option RatingVal) :
    1 ≤ coerceRating ro ∧ coerceRating ro ≤ 5 := by
  unfold coerceRating clampHigh clampLow
  rcases ro with _ | v
  · norm_num
  · rcases v with i | i | _ <;> simp only [ratingToInt, Option.getD] <;>
      split_ifs <;> omega

/-- Incrementing a bucket for an in-range rating grows the total by one. -/
lemma Distribution.add_total (d : Distribution) (r : Int) (h1 : 1 ≤ r)
    (h5 : r ≤ 5) : (d.add r).total = d.total + 1 := by
  have hr : r = 1 ∨ r = 2 ∨ r = 3 ∨ r = 4 ∨ r = 5 := by omega
  rcases hr with h | h | h | h | h <;> subst h <;>
    simp [Distribution.add, Distribution.total] <;> omega

/-- Incrementing a bucket for an in-range rating grows exactly the matching
lookup by one. -/
lemma Distribution.add_get (d : Distribution) (r b : Int) (h1 : 1 ≤ r)
    (h5 : r ≤ 5) :
    (d.add r).get b = d.get b + (if r = b then 1 else 0) := by
  have hr : r = 1 ∨ r = 2 ∨ r = 3 ∨ r = 4 ∨ r = 5 := by omega
  rcases hr with h | h | h | h | h <;> subst h <;>
    simp only [Distribution.add, Distribution.get] <;>
    norm_num <;> split_ifs <;> omega

/-- Folding `Distribution.add` over in-range ratings adds the list length to
the total. -/
lemma foldl_add_total (rs : List Int) (d : Distribution)
    (h : ∀ r ∈ rs, 1 ≤ r ∧ r ≤ 5) :
    (rs.foldl Distribution.add d).total = d.total + rs.length := by
  induction rs generalizing d with
  | nil => simp
  | cons r rs ih =>
    have hr := h r (by simp)
    have hrest : ∀ x ∈ rs, 1 ≤ x ∧ x ≤ 5 := fun x hx => h x (by simp [hx])
    simp only [List.foldl_cons, List.length_cons,
      ih (d.add r) hrest, Distribution.add_total d r hr.1 hr.2]
    omega

/-- Folding `Distribution.add` over in-range ratings makes each lookup count
the matching ratings. -/
lemma foldl_add_get (rs : List Int) (d : Distribution) (b : Int)
    (h : ∀ r ∈ rs, 1 ≤ r ∧ r ≤ 5) :
    (rs.foldl Distribution.add d).get b
      = d.get b + rs.countP (fun r => r = b) := by
  induction rs generalizing d with
  | nil => simp
  | cons r rs ih =>
    have hr := h r (by simp)
    have hrest : ∀ x ∈ rs, 1 ≤ x ∧ x ≤ 5 := fun x hx => h x (by simp [hx])
    simp only [List.foldl_cons, ih (d.add r) hrest,
      Distribution.add_get d r b hr.1 hr.2, List.countP_cons]
    by_cases hrb : r = b <;> simp [hrb] <;> omega

end Helpers

/-- C6: for every input list the distribution totals the count, the count is
the input length, and the empty input yields the zero summary. -/
theorem calculate_stats_invariants (l : List RawReview) :
    (calculate_stats l).distribution.total = (calculate_stats l).count
      ∧ (calculate_stats l).count = l.length
      ∧ calculate_stats []
          = { average := 0, count := 0, distribution := Distribution.zero } := by
  refine ⟨?_, ?_, rfl⟩ <;> unfold calculate_stats <;>
    rcases eq_or_ne l.length 0 with h0 | h0
  · simp [h0, Distribution.total, Distribution.zero]
  · rw [if_neg h0]
    show (List.foldl Distribution.add Distribution.zero _).total = l.length
    rw [foldl_add_total _ _ (fun r hr => by
      simp only [List.mem_map] at hr
      obtain ⟨x, _, hx⟩ := hr
      exact hx ▸ coerceRating_bounds x.rating)]
    simp [Distribution.total, Distribution.zero]
  · simp [h0]
  · rw [if_neg h0]

/-- C7: each histogram bucket counts exactly the reviews whose rating coerces
(int conversion, default 5 on failure or absence, clamp into [1,5]) to that
bucket; in particular a rating of 7 and an unparsable rating both count as 5. -/
theorem calculate_stats_buckets (l : List RawReview) (b : Int) :
    (calculate_stats l).distribution.get b
        = l.countP (fun r => coerceRating r.rating = b)
      ∧ coerceRating (some (.intVal 7)) = 5
      ∧ coerceRating (some .bad) = 5
      ∧ coerceRating none = 5 := by
  have hz : Distribution.zero.get b = 0 := by
    unfold Distribution.zero Distribution.get
    split_ifs <;> rfl
  refine ⟨?_, by decide, by decide, by decide⟩
  unfold calculate_stats
  rcases eq_or_ne l.length 0 with h0 | h0
  · rw [List.length_eq_zero] at h0
    subst h0
    simpa using hz
  · rw [if_neg h0]
    show (List.foldl Distribution.add Distribution.zero _).get b = _
    rw [foldl_add_get _ _ _ (fun r hr => by
      simp only [List.mem_map] at hr
      obtain ⟨x, _, hx⟩ := hr
      exact hx ▸ coerceRating_bounds x.rating)]
    rw [List.countP_map, hz]
    simp [Function.comp_def]

/-- C5 counterexample: on eight reviews whose coerced ratings sum to 33
(average 33/8 = 4.125, an exact half at the second decimal) the code's
average is 4.12 — the half does not round upward as the claim's
round-half-up rule (which gives 4.13) requires. -/
theorem stats_average_not_half_up :
    (calculate_stats (List.replicate 7 (ratedReview 4) ++ [ratedReview 5])).average
        = 412/100
      ∧ specRound2HalfUp (33/8) = 413/100
      ∧ (calculate_stats (List.replicate 7 (ratedReview 4) ++ [ratedReview 5])).average
        ≠ specRound2HalfUp (33/8) := by
  have h1 : (calculate_stats
      (List.replicate 7 (ratedReview 4) ++ [ratedReview 5])).average = 412/100 := by
    have : List.replicate 7 (ratedReview 4) ++ [ratedReview 5]
        = [ratedReview 4, ratedReview 4, ratedReview 4, ratedReview 4,
           ratedReview 4, ratedReview 4, ratedReview 4, ratedReview 5] := by rfl
    rw [this]
    norm_num [calculate_stats, coerceRating, clampLow, clampHigh, ratingToInt,
      ratedReview, emptyRawReview, List.foldl, pyRound2, roundHalfEven]
  have h2 : specRound2HalfUp (33/8) = 413/100 := by
    norm_num [specRound2HalfUp]
  exact ⟨h1, h2, by rw [h1, h2]; norm_num⟩

/-- C5 (amended): for every non-empty review list the stats average is the
sum of the coerced ratings divided by the count, rounded to 2 decimal places
with ties to even (Python 3 `round`): ratings [4,4,5] give 4.33, while an
exact half at the second decimal (33/8 = 4.125) rounds to the even neighbour
4.12, not upward. -/
theorem stats_average_rounding (l : List RawReview) (h : l ≠ []) :
    (calculate_stats l).average
      = pyRound2 ((((l.map (fun r => coerceRating r.rating)).foldl (· + ·) 0 : Int) : ℚ)
          / (l.length : ℚ))
    ∧ pyRound2 (13/3) = 433/100
    ∧ pyRound2 (33/8) = 412/100 := by
  refine ⟨?_, ?_, ?_⟩
  · unfold calculate_stats
    rw [if_neg (by simpa using h)]
  · norm_num [pyRound2, roundHalfEven]
  · norm_num [pyRound2, roundHalfEven]

/-- Witness for `stats_average_rounding` at the list [4,4,5]. -/
theorem stats_average_rounding_witness :
    [ratedReview 4, ratedReview 4, ratedReview 5] ≠ ([] : List RawReview)
    ∧ ((calculate_stats [ratedReview 4, ratedReview 4, ratedReview 5]).average
        = pyRound2 (((([ratedReview 4, ratedReview 4, ratedReview 5].map
            (fun r => coerceRating r.rating)).foldl (· + ·) 0 : Int) : ℚ)
          / (([ratedReview 4, ratedReview 4, ratedReview 5] : List RawReview).length : ℚ))
      ∧ pyRound2 (13/3) = 433/100
      ∧ pyRound2 (33/8) = 412/100) :=
  ⟨by simp, stats_average_rounding [ratedReview 4, ratedReview 4, ratedReview 5] (by simp)⟩

/-- C8: pagination requests pages of size 100 and stops on a short or empty
page: three upstream pages of sizes 100, 100, 40 take exactly 3 requests and
yield all 240 records, while 100, 100, 100 followed by an empty page take
exactly 4 requests and yield all 300 records. -/
theorem fetch_pagination (a b c : List RawReview)
    (ha : a.length = 100) (hb : b.length = 100) :
    (c.length = 40 →
        fetch_all_shop_reviews [.ok a, .ok b, .ok c] = (3, a ++ b ++ c))
      ∧ (c.length = 100 →
        fetch_all_shop_reviews [.ok a, .ok b, .ok c, .ok []] = (4, a ++ b ++ c)) := by
  have hane : a ≠ [] := by intro hh; subst hh; simp at ha
  have hbne : b ≠ [] := by intro hh; subst hh; simp at hb
  constructor <;> intro hc
  · have hcne : c ≠ [] := by intro hh; subst hh; simp at hc
    simp [fetch_all_shop_reviews, fetchGo, per_page, hane, hbne, hcne, ha, hb, hc]
  · have hcne : c ≠ [] := by intro hh; subst hh; simp at hc
    simp [fetch_all_shop_reviews, fetchGo, per_page, hane, hbne, hcne, ha, hb, hc]

/-- Witness for `fetch_pagination` on concrete pages of the stated sizes. -/
theorem fetch_pagination_witness :
    (List.replicate 100 emptyRawReview).length = 100
    ∧ (List.replicate 40 emptyRawReview).length = 40
    ∧ fetch_all_shop_reviews
          [.ok (List.replicate 100 emptyRawReview),
           .ok (List.replicate 100 emptyRawReview),
           .ok (List.replicate 40 emptyRawReview)]
        = (3, List.replicate 100 emptyRawReview ++ List.replicate 100 emptyRawReview
              ++ List.replicate 40 emptyRawReview)
    ∧ fetch_all_shop_reviews
          [.ok (List.replicate 100 emptyRawReview),
           .ok (List.replicate 100 emptyRawReview),
           .ok (List.replicate 100 emptyRawReview), .ok []]
        = (4, List.replicate 100 emptyRawReview ++ List.replicate 100 emptyRawReview
              ++ List.replicate 100 emptyRawReview) :=
  ⟨by simp, by simp,
   (fetch_pagination _ _ _ (by simp) (by simp)).1 (by simp),
   (fetch_pagination _ _ _ (by simp) (by simp)).2 (by simp)⟩

/-- Running the pagination loop over a block of full (page-sized) successful
pages appends all their records and adds one call per page. -/
lemma fetchGo_full_pages (good : List (List RawReview)) (tail : List PageResult)
    (acc : List RawReview) (calls : Nat)
    (h : ∀ p ∈ good, p.length = per_page) :
    fetchGo (good.map PageResult.ok ++ tail) acc calls
      = fetchGo tail (acc ++ good.flatten) (calls + good.length) := by
  induction good generalizing acc calls with
  | nil => simp
  | cons p good ih =>
    have hp := h p (by simp)
    have hpne : p ≠ [] := by intro hh; subst hh; simp [per_page] at hp
    have hrest : ∀ q ∈ good, q.length = per_page := fun q hq => h q (by simp [hq])
    show fetchGo (PageResult.ok p :: (good.map PageResult.ok ++ tail)) acc calls = _
    rw [show fetchGo (PageResult.ok p :: (good.map PageResult.ok ++ tail)) acc calls
          = fetchGo (good.map PageResult.ok ++ tail) (acc ++ p) (calls + 1) by
        simp [fetchGo, hpne, hp]]
    rw [ih (acc ++ p) (calls + 1) hrest, List.append_assoc]
    have : calls + 1 + good.length = calls + (p :: good).length := by
      simp; omega
    rw [this]
    rfl

/-- C9: if, after any block of full successful pages, a page request comes
back with a non-success status or raises a transport exception, the fetcher
stops there and returns exactly the records accumulated from the preceding
successful pages (no error is surfaced — the result is an ordinary list). -/
theorem fetch_fail_soft (good : List (List RawReview)) (e : PageResult)
    (rest : List PageResult) (h : ∀ p ∈ good, p.length = 100)
    (he : e = PageResult.httpError ∨ e = PageResult.exn) :
    fetch_all_shop_reviews (good.map PageResult.ok ++ e :: rest)
      = (good.length + 1, good.flatten) := by
  unfold fetch_all_shop_reviews
  rw [fetchGo_full_pages good (e :: rest) [] 0 (by simpa [per_page] using h)]
  rcases he with he | he <;> subst he <;> simp [fetchGo]

/-- Witness for `fetch_fail_soft`: one full page then an HTTP error returns
that page's records after exactly two calls. -/
theorem fetch_fail_soft_witness :
    (∀ p ∈ [List.replicate 100 emptyRawReview], p.length = 100)
    ∧ (PageResult.httpError = PageResult.httpError
        ∨ PageResult.httpError = PageResult.exn)
    ∧ fetch_all_shop_reviews
        ([List.replicate 100 emptyRawReview].map PageResult.ok
          ++ PageResult.httpError :: [])
      = ([List.replicate 100 emptyRawReview].length + 1,
         ([List.replicate 100 emptyRawReview] : List (List RawReview)).flatten) :=
  ⟨by simp, Or.inl rfl,
   fetch_fail_soft [List.replicate 100 emptyRawReview] PageResult.httpError []
     (by simp) (Or.inl rfl)⟩

/-- C10: a present-but-empty `handle` query parameter is treated exactly like
an absent one — the list route answers the 400 missing-parameter error and
performs zero upstream page requests, whatever the upstream would have
answered. -/
theorem route_empty_handle (responses : List PageResult) :
    get_reviews_route (some "") responses
        = (RouteOutcome.badRequest "Missing 'handle' parameter", 0)
      ∧ get_reviews_route (some "") responses = get_reviews_route none responses := by
  exact ⟨rfl, rfl⟩

/-- C2 counterexample: a raw review whose reviewer name is exactly
`"Anonymous"` is normalized with author `"Anonymous"`, not
`"Verified Buyer"` — the substitution the claim describes does not exist in
the code. -/
theorem author_no_substitution_cex :
    (normalizeReview anonReview).map CleanReview.author = some "Anonymous"
      ∧ (normalizeReview anonReview).map CleanReview.author
        ≠ some "Verified Buyer" := by
  exact ⟨rfl, by decide⟩

/-- C2 (amended): the normalized author is the resolved name unchanged
(`reviewer.name`, defaulting to `"Anonymous"`); no case-insensitive
`"Anonymous"` → `"Verified Buyer"` replacement happens, as the unchanged
output on the name `" ANONYMOUS "` shows. -/
theorem author_passthrough :
    (∀ r : RawReview, r.rating ≠ some RatingVal.bad →
        (normalizeReview r).map CleanReview.author = some (authorName r))
      ∧ (normalizeReview
          { emptyRawReview with reviewer := some ⟨some " ANONYMOUS "⟩ }).map
            CleanReview.author = some " ANONYMOUS " := by
  constructor
  · intro r hr
    unfold normalizeReview
    rcases hrr : r.rating with _ | v
    · simp [hrr]
    · rcases v with i | i | _
      · simp [hrr, ratingToInt]
      · simp [hrr, ratingToInt]
      · exact absurd hrr hr
  · rfl

/-- Witness for `author_passthrough` at a review with no rating key. -/
theorem author_passthrough_witness :
    emptyRawReview.rating ≠ some RatingVal.bad
    ∧ (normalizeReview emptyRawReview).map CleanReview.author
        = some (authorName emptyRawReview) :=
  ⟨by decide, author_passthrough.1 emptyRawReview (by decide)⟩

/-- C3 counterexample: a raw review whose `videos` list holds one entry with
a non-empty direct URL is normalized with an empty media list — no
`{type: "video", url}` item is produced, because the code never reads
`videos`. -/
theorem videos_not_extracted_cex :
    (normalizeReview videoReview).map CleanReview.media = some []
      ∧ videoReview.videos = [⟨some "https://cdn.example/v1.mp4", none⟩]
      ∧ strTruthy (pyOrStr (some "https://cdn.example/v1.mp4") none) = true := by
  exact ⟨rfl, rfl, rfl⟩

/-- C3 (amended): the normalized media list is exactly the image items
extracted from `pictures`; every media item has type `"image"`, and the
record's `videos` list has no influence on the extraction at all. -/
theorem media_images_only :
    (∀ (r : RawReview) (m : MediaItem), m ∈ extractMedia r → m.type = "image")
      ∧ (∀ (r : RawReview) (vs : List Video),
          extractMedia { r with videos := vs } = extractMedia r)
      ∧ (∀ r : RawReview, r.rating ≠ some RatingVal.bad →
          (normalizeReview r).map CleanReview.media = some (extractMedia r)) := by
  refine ⟨?_, ?_, ?_⟩
  · intro r m hm
    unfold extractMedia at hm
    rcases hp : r.pictures with _ | ps
    · rw [hp] at hm
      simp at hm
    · rw [hp] at hm
      dsimp only at hm
      by_cases hps : ps = []
      · simp [hps] at hm
      · rw [if_neg hps] at hm
        simp only [List.mem_filterMap] at hm
        obtain ⟨p, _, hpm⟩ := hm
        split at hpm
        · cases hpm
          rfl
        · cases hpm
  · intro r vs
    rfl
  · intro r hr
    unfold normalizeReview
    rcases hrr : r.rating with _ | v
    · simp [hrr]
    · rcases v with i | i | _
      · simp [hrr, ratingToInt]
      · simp [hrr, ratingToInt]
      · exact absurd hrr hr

/-- Witness for `media_images_only` at a review with one picture whose
`urls.original` is set and no rating key. -/
theorem media_images_only_witness :
    (⟨"image", "https://cdn.example/p1.jpg"⟩ : MediaItem)
        ∈ extractMedia
          { emptyRawReview with pictures := some [⟨some "https://cdn.example/p1.jpg", none⟩] }
    ∧ (⟨"image", "https://cdn.example/p1.jpg"⟩ : MediaItem).type = "image"
    ∧ extractMedia
        { emptyRawReview with
            pictures := some [⟨some "https://cdn.example/p1.jpg", none⟩],
            videos := [⟨some "https://cdn.example/v1.mp4", none⟩] }
      = extractMedia
        { emptyRawReview with pictures := some [⟨some "https://cdn.example/p1.jpg", none⟩] }
    ∧ emptyRawReview.rating ≠ some RatingVal.bad
    ∧ (normalizeReview emptyRawReview).map CleanReview.media
        = some (extractMedia emptyRawReview) :=
  ⟨by decide,
   media_images_only.1
     { emptyRawReview with pictures := some [⟨some "https://cdn.example/p1.jpg", none⟩] }
     ⟨"image", "https://cdn.example/p1.jpg"⟩ (by decide),
   media_images_only.2.1
     { emptyRawReview with pictures := some [⟨some "https://cdn.example/p1.jpg", none⟩] }
     [⟨some "https://cdn.example/v1.mp4", none⟩],
   by decide,
   media_images_only.2.2 emptyRawReview (by decide)⟩

/-- C4 counterexample: a raw rating of 7 is normalized to rating 7, not
clamped into [1,5] — the response-shaping step applies no clamping. -/
theorem rating_not_clamped_cex :
    (normalizeReview (ratedReview 7)).map CleanReview.rating = some 7
      ∧ (normalizeReview (ratedReview 7)).map CleanReview.rating ≠ some 5 := by
  exact ⟨rfl, by decide⟩

/-- C4 (amended): the normalized rating is the plain integer conversion of
the raw rating — an integer value passes through unchanged (no clamping),
an absent key defaults to 5, and an unconvertible value raises an uncaught
exception. -/
theorem rating_passthrough :
    (∀ (r : RawReview) (i : Int), r.rating = some (RatingVal.intVal i) →
        (normalizeReview r).map CleanReview.rating = some i)
      ∧ (∀ r : RawReview, r.rating = none →
          (normalizeReview r).map CleanReview.rating = some 5)
      ∧ (∀ r : RawReview, r.rating = some RatingVal.bad →
          normalizeReview r = none) := by
  refine ⟨?_, ?_, ?_⟩ <;> intro r
  · intro i hrr
    simp [normalizeReview, hrr, ratingToInt]
  · intro hrr
    simp [normalizeReview, hrr]
  · intro hrr
    simp [normalizeReview, hrr, ratingToInt]

/-- Witness for `rating_passthrough` at ratings 7, absent, and unparsable. -/
theorem rating_passthrough_witness :
    (ratedReview 7).rating = some (RatingVal.intVal 7)
    ∧ (normalizeReview (ratedReview 7)).map CleanReview.rating = some 7
    ∧ emptyRawReview.rating = none
    ∧ (normalizeReview emptyRawReview).map CleanReview.rating = some 5
    ∧ { emptyRawReview with rating := some RatingVal.bad }.rating
        = some RatingVal.bad
    ∧ normalizeReview { emptyRawReview with rating := some RatingVal.bad }
        = none :=
  ⟨by decide, rating_passthrough.1 (ratedReview 7) 7 (by decide),
   by decide, rating_passthrough.2.1 emptyRawReview (by decide),
   by decide,
   rating_passthrough.2.2 { emptyRawReview with rating := some RatingVal.bad }
     (by decide)⟩

/-- C1 (submit endpoint, modelled from the spec): with a JSON body present,
the route answers 404 when the handle has no configured numeric product id;
with a mapped handle it answers 200 success on an upstream 2xx, relays the
upstream status and message on a provider rejection, and answers 500 on a
transport failure; a missing body is a 400. -/
theorem submit_review_behaviour (handleMap : String → Option Nat)
    (req : SubmissionRequest) :
    (∀ up : SubmitUpstream, handleMap req.handle = none →
        submit_review_route handleMap (some req) up
          = ⟨404, "Product handle not configured"⟩)
      ∧ (∀ (pid st : Nat) (msg : String), handleMap req.handle = some pid →
          200 ≤ st → st < 300 →
          submit_review_route handleMap (some req) (.response st msg)
            = ⟨200, "success"⟩)
      ∧ (∀ (pid st : Nat) (msg : String), handleMap req.handle = some pid →
          ¬ (200 ≤ st ∧ st < 300) →
          submit_review_route handleMap (some req) (.response st msg)
            = ⟨st, msg⟩)
      ∧ (∀ pid : Nat, handleMap req.handle = some pid →
          submit_review_route handleMap (some req) SubmitUpstream.transportFailure
            = ⟨500, "Internal server error"⟩)
      ∧ (∀ up : SubmitUpstream,
          submit_review_route handleMap none up = ⟨400, "Missing JSON body"⟩) := by
  refine ⟨?_, ?_, ?_, ?_, ?_⟩
  · intro up hmap
    simp [submit_review_route, hmap]
  · intro pid st msg hmap h2 h3
    simp [submit_review_route, hmap, h2, h3]
  · intro pid st msg hmap hno
    simp [submit_review_route, hmap, hno]
  · intro pid hmap
    simp [submit_review_route, hmap]
  · intro up
    rfl

/-- Witness for `submit_review_behaviour` on a concrete handle map and body. -/
theorem submit_review_behaviour_witness :
    ((fun _ : String => (none : Option Nat)) exampleSubmission.handle = none)
    ∧ submit_review_route (fun _ => none) (some exampleSubmission)
        (SubmitUpstream.response 200 "ok")
      = ⟨404, "Product handle not configured"⟩
    ∧ exampleHandleMap exampleSubmission.handle = some 123
    ∧ (200 ≤ 201 ∧ 201 < 300)
    ∧ submit_review_route exampleHandleMap (some exampleSubmission)
        (SubmitUpstream.response 201 "Created") = ⟨200, "success"⟩
    ∧ ¬ (200 ≤ 422 ∧ 422 < 300)
    ∧ submit_review_route exampleHandleMap (some exampleSubmission)
        (SubmitUpstream.response 422 "Invalid review") = ⟨422, "Invalid review"⟩
    ∧ submit_review_route exampleHandleMap (some exampleSubmission)
        SubmitUpstream.transportFailure = ⟨500, "Internal server error"⟩
    ∧ submit_review_route exampleHandleMap none (SubmitUpstream.response 200 "ok")
      = ⟨400, "Missing JSON body"⟩ :=
  ⟨rfl,
   (submit_review_behaviour (fun _ => none) exampleSubmission).1
     (SubmitUpstream.response 200 "ok") rfl,
   by decide,
   by decide,
   (submit_review_behaviour exampleHandleMap exampleSubmission).2.1 123 201
     "Created" (by decide) (by decide) (by decide),
   by decide,
   (submit_review_behaviour exampleHandleMap exampleSubmission).2.2.1 123 422
     "Invalid review" (by decide) (by decide),
   (submit_review_behaviour exampleHandleMap exampleSubmission).2.2.2.1 123
     (by decide),
   (submit_review_behaviour exampleHandleMap exampleSubmission).2.2.2.2
     (SubmitUpstream.response 200 "ok")⟩
